import Mathlib

/-!
Shallow embedding of the Archive OmniDash persistence layer
(src/services/storageService.ts) and wayback client
(src/services/waybackService.ts), with theorems checking the
specification's claims about them.
-/

namespace OmniDash

/-- Modelled from the spec: the `SavedSnapshot` record type (declared in
src/types.ts, which is not among the sources). Per spec section 3: `id` is the
string primary key, `originalUrl` the archived source URL, `timestamp` the
archival capture time, `savedAt` the numeric local write time used for display
ordering, and the remaining descriptive fields (title, status) are opaque
payload not interpreted by the store. -/
structure SavedSnapshot where
  id : String
  originalUrl : String
  timestamp : String
  savedAt : Int
  payload : String
deriving DecidableEq, Repr

/-- `const DB_VERSION = 1` in storageService.ts. -/
def DB_VERSION : Nat := 1

/-- `const STORE_NAME = 'snapshots'` in storageService.ts. -/
def STORE_NAME : String := "snapshots"

/-- The engine-side persistent database (the IndexedDB database named
OmniDashDB): its version, the names of its object stores, the names of the
indexes on the snapshots store, and the records of the snapshots store. -/
structure Database where
  version : Nat
  storeNames : List String
  indexNames : List String
  snapshots : List SavedSnapshot
deriving DecidableEq, Repr

/-- A database that has never been opened: version 0, no object stores. -/
def freshDatabase : Database :=
  { version := 0, storeNames := [], indexNames := [], snapshots := [] }

/-- The `onupgradeneeded` handler of `StorageService.init`: if the database
does not yet contain the snapshots object store, create it (keyed by `id`)
with its two non-unique indexes on `timestamp` and `originalUrl`. Returns the
updated database and whether `createObjectStore` ran. -/
def upgradeNeeded (d : Database) : Database × Bool :=
  if STORE_NAME ∈ d.storeNames then (d, false)
  else
    ({ d with
        storeNames := d.storeNames ++ [STORE_NAME]
        indexNames := ["timestamp", "originalUrl"]
        snapshots := [] }, true)

/-- The engine-side semantics of `indexedDB.open(DB_NAME, DB_VERSION)`: when
the stored version is below the requested one a version-change transaction
fires `onupgradeneeded` and then records the new version; otherwise the open
succeeds with the database untouched. Returns the database and whether the
creation logic (`createObjectStore`) ran. -/
def engineOpen (d : Database) : Database × Bool :=
  if d.version < DB_VERSION then
    let r := upgradeNeeded d
    ({ r.1 with version := DB_VERSION }, r.2)
  else (d, false)

/-- `IDBObjectStore.put` on a store with keyPath `id`: insert the record,
replacing any prior record stored under the same key. -/
def idbPut (m : List SavedSnapshot) (r : SavedSnapshot) : List SavedSnapshot :=
  r :: m.filter (fun x => x.id != r.id)

/-- `IDBObjectStore.get`: point lookup by key, `undefined` (none) on a miss. -/
def idbGet (m : List SavedSnapshot) (i : String) : Option SavedSnapshot :=
  m.find? (fun x => x.id == i)

/-- `IDBObjectStore.delete`: remove the record with the given key; a silent
no-op when no record has that key. -/
def idbDelete (m : List SavedSnapshot) (i : String) : List SavedSnapshot :=
  m.filter (fun x => x.id != i)

/-- Primary key order of the snapshots store (keyPath `id`). -/
def keyOrder : SavedSnapshot → SavedSnapshot → Prop := fun a b => a.id ≤ b.id

instance : DecidableRel keyOrder := fun a b =>
  inferInstanceAs (Decidable (a.id ≤ b.id))

instance : IsTotal SavedSnapshot keyOrder := ⟨fun a b => le_total a.id b.id⟩

instance : IsTrans SavedSnapshot keyOrder := ⟨fun _ _ _ hab hbc => le_trans hab hbc⟩

/-- `IDBObjectStore.getAll`: every record of the store, in ascending primary
key order. -/
def idbGetAll (m : List SavedSnapshot) : List SavedSnapshot :=
  m.insertionSort keyOrder

/-- The in-process service state: whether `this.db` holds an open handle,
together with the shared persistent database the handle refers to. -/
structure StorageService where
  dbOpen : Bool
  disk : Database
deriving DecidableEq, Repr

/-- `StorageService.init`: if `this.db` is already set, return immediately;
otherwise open the database through the engine (running the version-change
upgrade when needed) and record the handle. The Bool reports whether the
collection-creation logic ran during this call. -/
def StorageService.init (s : StorageService) : StorageService × Bool :=
  if s.dbOpen then (s, false)
  else
    let r := engineOpen s.disk
    ({ dbOpen := true, disk := r.1 }, r.2)

/-- `StorageService.saveSnapshot`: await init, then reject if `this.db` is
still null, else `put` the record under a read-write transaction. -/
def StorageService.saveSnapshot (s : StorageService) (r : SavedSnapshot) :
    Except String StorageService :=
  let s1 := (s.init).1
  if s1.dbOpen then
    .ok { s1 with disk := { s1.disk with snapshots := idbPut s1.disk.snapshots r } }
  else .error "Database not initialized"

/-- The comparator `(a, b) => b.savedAt - a.savedAt` passed to
`results.sort` by `getAllSnapshots`: a sorts no later than b exactly when
b.savedAt ≤ a.savedAt (descending by savedAt). `Array.prototype.sort` is a
stable comparison sort, modelled here by a stable sort with respect to this
total preorder. -/
def savedAtDesc : SavedSnapshot → SavedSnapshot → Prop :=
  fun a b => b.savedAt ≤ a.savedAt

instance : DecidableRel savedAtDesc := fun a b =>
  inferInstanceAs (Decidable (b.savedAt ≤ a.savedAt))

instance : IsTotal SavedSnapshot savedAtDesc :=
  ⟨fun a b => Int.le_total b.savedAt a.savedAt⟩

instance : IsTrans SavedSnapshot savedAtDesc :=
  ⟨fun _ _ _ hab hbc => le_trans hbc hab⟩

/-- `StorageService.getAllSnapshots`: await init, reject if `this.db` is null,
else read every record under a read-only transaction and sort the in-memory
result by `savedAt` descending before resolving. -/
def StorageService.getAllSnapshots (s : StorageService) :
    Except String (StorageService × List SavedSnapshot) :=
  let s1 := (s.init).1
  if s1.dbOpen then
    .ok (s1, (idbGetAll s1.disk.snapshots).insertionSort savedAtDesc)
  else .error "Database not initialized"

/-- `StorageService.getSnapshot`: await init, reject if `this.db` is null,
else point lookup under a read-only transaction, resolving with the record or
`undefined`. -/
def StorageService.getSnapshot (s : StorageService) (i : String) :
    Except String (StorageService × Option SavedSnapshot) :=
  let s1 := (s.init).1
  if s1.dbOpen then .ok (s1, idbGet s1.disk.snapshots i)
  else .error "Database not initialized"

/-- `StorageService.deleteSnapshot`: await init, reject if `this.db` is null,
else delete by key under a read-write transaction. -/
def StorageService.deleteSnapshot (s : StorageService) (i : String) :
    Except String StorageService :=
  let s1 := (s.init).1
  if s1.dbOpen then
    .ok { s1 with disk := { s1.disk with snapshots := idbDelete s1.disk.snapshots i } }
  else .error "Database not initialized"

/-- Whether an operation resolved rather than rejected. -/
def exOk {α : Type} : Except String α → Bool
  | .ok _ => true
  | .error _ => false

/-- The resolved value of an operation, with a default for the rejected
case. -/
def exGet {α : Type} (d : α) : Except String α → α
  | .ok v => v
  | .error _ => d

/-- The service state after a resolved `saveSnapshot` call. -/
def afterSave (s : StorageService) (r : SavedSnapshot) : StorageService :=
  { (s.init).1 with
    disk := { (s.init).1.disk with
              snapshots := idbPut (s.init).1.disk.snapshots r } }

/-- The service state after a resolved `deleteSnapshot` call. -/
def afterDelete (s : StorageService) (i : String) : StorageService :=
  { (s.init).1 with
    disk := { (s.init).1.disk with
              snapshots := idbDelete (s.init).1.disk.snapshots i } }

/-- Model of two callers racing on `init`. Each call runs the synchronous
`if (this.db) return` check and then awaits `indexedDB.open`; JavaScript has
a single thread of control, and the engine serializes the two version-change
opens. The flag selects whether the second caller's null check runs before
the first open completes (so both callers reach the engine, in order) or
after it (so the handle is set and the second call is an immediate no-op).
The two returned flags report whether each caller's open ran the
collection-creation logic. -/
def concurrentInit (s : StorageService) (secondCheckEarly : Bool) :
    StorageService × Bool × Bool :=
  if s.dbOpen then (s, false, false)
  else if secondCheckEarly then
    let r1 := engineOpen s.disk
    let r2 := engineOpen r1.1
    ({ dbOpen := true, disk := r2.1 }, r1.2, r2.2)
  else
    let r1 := engineOpen s.disk
    ({ dbOpen := true, disk := r1.1 }, r1.2, false)

/-- The record of the specification's replacement example before the second
upsert. -/
def rAx : SavedSnapshot :=
  { id := "a", originalUrl := "x", timestamp := "", savedAt := 1, payload := "" }

/-- The record of the specification's replacement example after the second
upsert. -/
def rAy : SavedSnapshot :=
  { id := "a", originalUrl := "y", timestamp := "", savedAt := 2, payload := "" }

/-- A sample record stored under id b. -/
def rB : SavedSnapshot :=
  { id := "b", originalUrl := "u", timestamp := "t", savedAt := 5, payload := "p" }

/-- A service whose database has never been opened. -/
def emptyService : StorageService := { dbOpen := false, disk := freshDatabase }

/-- A service already holding an open handle on a version-1 database that
contains the single record `rB`. -/
def serviceB : StorageService :=
  { dbOpen := true
    disk := { version := 1, storeNames := ["snapshots"],
              indexNames := ["timestamp", "originalUrl"], snapshots := [rB] } }

/-- A service already holding an open handle on a version-1 database that
contains the records `rAx` (id a) and `rB` (id b). -/
def serviceAB : StorageService :=
  { dbOpen := true
    disk := { version := 1, storeNames := ["snapshots"],
              indexNames := ["timestamp", "originalUrl"],
              snapshots := [rAx, rB] } }

/-! ### Wayback client (src/services/waybackService.ts) -/

/-- The value of `localStorage.getItem('omnidash_settings')` as seen by
`isDemoMode`: absent (null), present but unparseable, or parsed settings
carrying the truthiness of the `demoMode` field. -/
inductive LocalStorageItem where
  | absent
  | malformed
  | settings (demoMode : Bool)
deriving DecidableEq, Repr

/-- `isDemoMode` in waybackService.ts: read the settings item; when present,
parse it and return its `demoMode` field; a parse failure or an absent item
yields false. -/
def isDemoMode : LocalStorageItem → Bool
  | .absent => false
  | .malformed => false
  | .settings d => d

/-- `res.ok` of the Fetch API: status in the 200 to 299 range. -/
def resOk (status : Nat) : Bool := decide (200 ≤ status ∧ status ≤ 299)

/-- The closest-snapshot entry of the availability result, with the fields
`getMockAvailability` in mockService.ts constructs. -/
structure ClosestSnapshot where
  available : Bool
  status : String
  timestamp : String
  url : String
deriving DecidableEq, Repr

/-- The `archived_snapshots` object of the availability result; a url with
no capture carries no `closest` entry. -/
structure ArchivedSnapshots where
  closest : Option ClosestSnapshot
deriving DecidableEq, Repr

/-- The `WaybackAvailability` result shape: declared in src/types.ts, which
is not among the sources, with the fields following the object that
`getMockAvailability` in mockService.ts constructs. -/
structure WaybackAvailability where
  url : String
  archived_snapshots : ArchivedSnapshots
deriving DecidableEq, Repr

/-- `getMockAvailability` in mockService.ts: deterministic synthetic
availability data for the url, whose closest snapshot is the
web.archive.org capture of 2023-10-15 12:00:00 of that url. -/
def getMockAvailability (url : String) : WaybackAvailability :=
  { url := url
    archived_snapshots :=
      { closest := some
          { available := true, status := "200",
            timestamp := "20231015120000",
            url := "http://web.archive.org/web/20231015120000/" ++ url } } }

/-- The `CDXRecord` shape as `fetchCDX` builds it from the columns of one row
of the CDX response; a column missing from a short row is `undefined`,
modelled as `none`. -/
structure CDXRecord where
  urlkey : Option String
  timestamp : Option String
  original : Option String
  mimetype : Option String
  statuscode : Option String
  digest : Option String
  length : Option String
deriving DecidableEq, Repr

/-- The row-to-record mapping applied by `fetchCDX` to `json.slice(1)`. -/
def rowToRecord (row : List String) : CDXRecord :=
  { urlkey := row[0]?, timestamp := row[1]?, original := row[2]?,
    mimetype := row[3]?, statuscode := row[4]?, digest := row[5]?,
    length := row[6]? }

/-- The rendering of `(i % 12 + 1).toString().padStart(2, '0')` used for the
month of each mock timestamp. -/
def pad2 (n : Nat) : String :=
  if n < 10 then "0" ++ toString n else toString n

/-- `getMockCDX` in mockService.ts: 15 deterministic synthetic capture
records for the url, one per index 0..14, with a monthly 2023 timestamp,
mimetype text/html, status 200, digest 3I42H3S6NNFQ2MSVX7XZKYAYSCX5QBYJ and
length 1234. -/
def getMockCDX (url : String) : List CDXRecord :=
  (List.range 15).map (fun i =>
    { urlkey := some url
      timestamp := some ("2023" ++ pad2 (i % 12 + 1) ++ "01120000")
      original := some url
      mimetype := some "text/html"
      statuscode := some "200"
      digest := some "3I42H3S6NNFQ2MSVX7XZKYAYSCX5QBYJ"
      length := some "1234" })

/-- The body of an availability response as `res.json()` sees it: either the
parse rejects, or it yields a value (returned by `checkAvailability` without
further validation). -/
inductive AvailBody where
  | badJson
  | json (v : WaybackAvailability)
deriving DecidableEq, Repr

/-- Outcome of the network interaction in `checkAvailability`: the fetch
rejects (network error), or a response arrives with a status and body. -/
inductive AvailOutcome where
  | netError (msg : String)
  | resp (status : Nat) (body : AvailBody)
deriving DecidableEq, Repr

/-- The try-block of `checkAvailability`: propagate a fetch rejection, throw
on a non-OK status, throw on a parse failure, otherwise return the parsed
value. -/
def checkAvailabilityTry (out : AvailOutcome) : Except String WaybackAvailability :=
  match out with
  | .netError m => .error m
  | .resp status body =>
    if resOk status then
      match body with
      | .badJson => .error "JSON parse error"
      | .json v => .ok v
    else .error ("Availability check failed with status: " ++ toString status)

/-- `checkAvailability`: demo mode resolves with mock data; otherwise run the
try-block and catch any failure by resolving with mock data. -/
def checkAvailability (ls : LocalStorageItem) (url : String)
    (out : AvailOutcome) : Except String WaybackAvailability :=
  if isDemoMode ls then .ok (getMockAvailability url)
  else
    match checkAvailabilityTry out with
    | .ok v => .ok v
    | .error _ => .ok (getMockAvailability url)

/-- The body of a CDX response: content type not application/json (with the
raw text), JSON content type whose parse rejects, a parsed JSON array of
rows, or parsed JSON that is not an array. -/
inductive CDXBody where
  | notJson (text : String)
  | badJson
  | jsonArr (rows : List (List String))
  | jsonOther
deriving DecidableEq, Repr

/-- Outcome of the network interaction in `fetchCDX`. -/
inductive CDXOutcome where
  | netError (msg : String)
  | resp (status : Nat) (body : CDXBody)
deriving DecidableEq, Repr

/-- The try-block of `fetchCDX`: propagate a fetch rejection; throw on a
non-OK status; on a non-JSON content type return the empty list when the
body text is empty and throw otherwise; throw on a parse failure; map the
rows after the header when the parsed array has more than one row; return
the empty list otherwise. -/
def fetchCDXTry (out : CDXOutcome) : Except String (List CDXRecord) :=
  match out with
  | .netError m => .error m
  | .resp status body =>
    if resOk status then
      match body with
      | .notJson text =>
        if text.length = 0 then .ok []
        else .error "Received non-JSON response from CDX API"
      | .badJson => .error "JSON parse error"
      | .jsonArr rows =>
        if 1 < rows.length then .ok ((rows.drop 1).map rowToRecord)
        else .ok []
      | .jsonOther => .ok []
    else .error ("CDX fetch failed with status: " ++ toString status)

/-- `fetchCDX`: demo mode resolves with mock data; otherwise run the
try-block and catch any failure by resolving with mock data. -/
def fetchCDX (ls : LocalStorageItem) (url : String) (out : CDXOutcome) :
    Except String (List CDXRecord) :=
  if isDemoMode ls then .ok (getMockCDX url)
  else
    match fetchCDXTry out with
    | .ok v => .ok v
    | .error _ => .ok (getMockCDX url)

/-- The `{ saved, message }` result shape of `savePageNow`. -/
structure SaveResult where
  saved : Bool
  message : String
deriving DecidableEq, Repr

/-- Outcome of the capture POST in `savePageNow`: the fetch rejects, or a
response arrives with a status and (for the failure path) its body text. -/
inductive SaveOutcome where
  | netError (msg : String)
  | resp (status : Nat) (text : String)
deriving DecidableEq, Repr

/-- The `text.includes` check on the failure body of `savePageNow`. -/
def textIncludesDoctype (text : String) : Bool :=
  1 < (text.splitOn "<!DOCTYPE html>").length

/-- `savePageNow`: demo mode resolves with the mock success message without
touching the network; with an empty access or secret key it rejects with the
missing-credentials error without submitting; otherwise it POSTs the capture
request and maps the response: OK resolves with the submitted message,
otherwise it throws the HTML-specific message, the body text, or (when the
body is empty, a falsy string) the generic status message. The Bool reports
whether a capture request was submitted to the network. -/
def savePageNow (ls : LocalStorageItem) (url accessKey secretKey : String)
    (out : SaveOutcome) : Except String SaveResult × Bool :=
  if isDemoMode ls then
    (.ok { saved := true,
           message := "Mock Mode: URL successfully queued for capture." }, false)
  else if accessKey = "" ∨ secretKey = "" then
    (.error "Missing Credentials. Please configure API keys in Settings.", false)
  else
    match out with
    | .netError m => (.error m, true)
    | .resp status text =>
      if resOk status then
        (.ok { saved := true, message := "Capture request submitted." }, true)
      else if textIncludesDoctype text then
        (.error ("Capture failed (Status " ++ toString status
            ++ "). This may be due to rate limits or CORS issues when running client-side."),
         true)
      else if text = "" then
        (.error ("Capture failed with status " ++ toString status), true)
      else (.error text, true)

/-! ### Basic lemmas about init -/

theorem init_dbOpen (s : StorageService) : ((s.init).1).dbOpen = true := by
  unfold StorageService.init
  by_cases h : s.dbOpen <;> simp [h]

theorem init_of_dbOpen (s : StorageService) (h : s.dbOpen = true) :
    s.init = (s, false) := by
  unfold StorageService.init
  simp [h]

theorem init_idem (s : StorageService) :
    ((s.init).1).init = ((s.init).1, false) :=
  init_of_dbOpen _ (init_dbOpen s)

theorem engineOpen_version (d : Database) :
    ¬ ((engineOpen d).1.version < DB_VERSION) := by
  unfold engineOpen upgradeNeeded
  by_cases h : d.version < DB_VERSION <;>
    by_cases h2 : STORE_NAME ∈ d.storeNames <;>
      simp [h, h2]

theorem engineOpen_idem (d : Database) :
    engineOpen (engineOpen d).1 = ((engineOpen d).1, false) := by
  have h := engineOpen_version d
  revert h
  generalize (engineOpen d).1 = e
  intro h
  unfold engineOpen
  simp [h]

/-! ### Lemmas describing the resolved value of each operation -/

theorem afterSave_dbOpen (s : StorageService) (r : SavedSnapshot) :
    (afterSave s r).dbOpen = true := init_dbOpen s

theorem afterDelete_dbOpen (s : StorageService) (i : String) :
    (afterDelete s i).dbOpen = true := init_dbOpen s

theorem saveSnapshot_run (s : StorageService) (r : SavedSnapshot) :
    s.saveSnapshot r = .ok (afterSave s r) := by
  simp [StorageService.saveSnapshot, afterSave, init_dbOpen]

theorem getSnapshot_run (s : StorageService) (i : String) :
    s.getSnapshot i = .ok ((s.init).1, idbGet (s.init).1.disk.snapshots i) := by
  simp [StorageService.getSnapshot, init_dbOpen]

theorem getAllSnapshots_run (s : StorageService) :
    s.getAllSnapshots =
      .ok ((s.init).1,
           (idbGetAll (s.init).1.disk.snapshots).insertionSort savedAtDesc) := by
  simp [StorageService.getAllSnapshots, init_dbOpen]

theorem deleteSnapshot_run (s : StorageService) (i : String) :
    s.deleteSnapshot i = .ok (afterDelete s i) := by
  simp [StorageService.deleteSnapshot, afterDelete, init_dbOpen]

theorem idbGet_put_same (m : List SavedSnapshot) (r : SavedSnapshot) :
    idbGet (idbPut m r) r.id = some r := by
  simp [idbGet, idbPut, List.find?_cons]

theorem getSnapshot_of_open (s : StorageService) (hs : s.dbOpen = true)
    (i : String) :
    s.getSnapshot i = .ok (s, idbGet s.disk.snapshots i) := by
  rw [getSnapshot_run, init_of_dbOpen s hs]

theorem idbPut_put_same (m : List SavedSnapshot) (r1 r2 : SavedSnapshot)
    (h : r1.id = r2.id) :
    idbPut (idbPut m r1) r2 = idbPut m r2 := by
  simp [idbPut, List.filter_cons, h, List.filter_filter]

theorem afterSave_snapshots (s : StorageService) (r : SavedSnapshot) :
    (afterSave s r).disk.snapshots = idbPut (s.init).1.disk.snapshots r := rfl

theorem afterDelete_snapshots (s : StorageService) (i : String) :
    (afterDelete s i).disk.snapshots = idbDelete (s.init).1.disk.snapshots i := rfl

theorem afterSave_of_open (s : StorageService) (hs : s.dbOpen = true)
    (r : SavedSnapshot) :
    afterSave s r
      = { s with disk := { s.disk with snapshots := idbPut s.disk.snapshots r } } := by
  unfold afterSave
  rw [init_of_dbOpen s hs]

theorem afterSave_afterSave (s : StorageService) (r1 r2 : SavedSnapshot)
    (h : r1.id = r2.id) :
    afterSave (afterSave s r1) r2 = afterSave s r2 := by
  rw [afterSave_of_open (afterSave s r1) (afterSave_dbOpen s r1) r2]
  unfold afterSave
  simp [idbPut_put_same _ r1 r2 h]

theorem save_save (s : StorageService) (r1 r2 : SavedSnapshot) :
    Except.bind (s.saveSnapshot r1) (fun s1 => s1.saveSnapshot r2)
      = .ok (afterSave (afterSave s r1) r2) := by
  rw [saveSnapshot_run s r1]
  exact saveSnapshot_run _ r2

/-! ### The claims -/

/-- C1: for every store state and every record R, `upsert(R)` (saveSnapshot)
resolves, and `getById(R.id)` (getSnapshot) on the resulting store resolves
with a record equal to R. -/
theorem upsert_then_get (s : StorageService) (r : SavedSnapshot) :
    exOk (s.saveSnapshot r) = true ∧
    (exGet s (s.saveSnapshot r)).getSnapshot r.id
      = .ok (exGet s (s.saveSnapshot r), some r) := by
  rw [saveSnapshot_run]
  refine ⟨rfl, ?_⟩
  simp only [exGet]
  rw [getSnapshot_of_open (afterSave s r) (afterSave_dbOpen s r),
    afterSave_snapshots, idbGet_put_same]

/-- C2: upserting R1 and then R2 with the same id leaves the store in exactly
the state that upserting R2 alone produces (full replacement, last write
wins, no merge), and a subsequent `getById` returns R2 in full. -/
theorem upsert_same_id_replaces (s : StorageService) (r1 r2 : SavedSnapshot)
    (h : r1.id = r2.id) :
    Except.bind (s.saveSnapshot r1) (fun s1 => s1.saveSnapshot r2)
      = s.saveSnapshot r2 ∧
    (exGet s (Except.bind (s.saveSnapshot r1)
        (fun s1 => s1.saveSnapshot r2))).getSnapshot r2.id
      = .ok (exGet s (s.saveSnapshot r2), some r2) := by
  constructor
  · rw [save_save, afterSave_afterSave s r1 r2 h, saveSnapshot_run s r2]
  · rw [save_save, afterSave_afterSave s r1 r2 h, saveSnapshot_run s r2]
    simp only [exGet]
    rw [getSnapshot_of_open (afterSave s r2) (afterSave_dbOpen s r2),
      afterSave_snapshots, idbGet_put_same]

theorem idbGet_eq_none (m : List SavedSnapshot) (i : String)
    (h : ∀ r ∈ m, r.id ≠ i) : idbGet m i = none := by
  simp only [idbGet, List.find?_eq_none]
  intro x hx
  simpa using h x hx

/-- C3: `listAll` (getAllSnapshots) always resolves; beyond lazily opening the
handle it does not change the store; its result is a permutation of the full
set of stored records, ordered by `savedAt` descending; and on the empty
store it resolves with the empty sequence rather than an error. -/
theorem listAll_sorted (s : StorageService) :
    exOk s.getAllSnapshots = true ∧
    (exGet ((s.init).1, []) s.getAllSnapshots).1 = (s.init).1 ∧
    List.Perm (exGet ((s.init).1, []) s.getAllSnapshots).2
      (s.init).1.disk.snapshots ∧
    List.Pairwise savedAtDesc (exGet ((s.init).1, []) s.getAllSnapshots).2 ∧
    (exGet ((emptyService.init).1, []) emptyService.getAllSnapshots).2 = [] := by
  rw [getAllSnapshots_run]
  refine ⟨rfl, rfl, ?_, ?_, rfl⟩
  · exact (List.perm_insertionSort savedAtDesc _).trans
      (List.perm_insertionSort keyOrder _)
  · exact List.sorted_insertionSort savedAtDesc _

/-- C4: when no stored record has the requested id, `getById` (getSnapshot)
resolves with `undefined` (none) rather than rejecting. -/
theorem get_missing_id (s : StorageService) (i : String)
    (h : ∀ r ∈ (s.init).1.disk.snapshots, r.id ≠ i) :
    s.getSnapshot i = .ok ((s.init).1, none) := by
  rw [getSnapshot_run, idbGet_eq_none _ _ h]

/-- Witness for C4: looking up an unknown id in a never-opened store. -/
theorem get_missing_id_witness :
    (∀ r ∈ ((emptyService.init).1).disk.snapshots, r.id ≠ "nonexistent") ∧
    emptyService.getSnapshot "nonexistent" = .ok ((emptyService.init).1, none) :=
  ⟨by decide, get_missing_id emptyService "nonexistent" (by decide)⟩

/-- C5: when no stored record has the requested id, `deleteById`
(deleteSnapshot) resolves (idempotent delete) with the store state unchanged,
and a subsequent `getById` of that id still resolves with `undefined`. -/
theorem delete_missing_id (s : StorageService) (i : String)
    (h : ∀ r ∈ (s.init).1.disk.snapshots, r.id ≠ i) :
    s.deleteSnapshot i = .ok ((s.init).1) ∧
    ((s.init).1).getSnapshot i = .ok ((s.init).1, none) := by
  constructor
  · rw [deleteSnapshot_run]
    have hf : idbDelete (s.init).1.disk.snapshots i
        = (s.init).1.disk.snapshots := by
      simp only [idbDelete]
      apply List.filter_eq_self.mpr
      intro a ha
      simpa using h a ha
    have hd : afterDelete s i = (s.init).1 := by
      unfold afterDelete
      rw [hf]
    rw [hd]
  · rw [getSnapshot_of_open ((s.init).1) (init_dbOpen s), idbGet_eq_none _ _ h]

/-- Witness for C5: deleting an unknown id from a store holding `rB`. -/
theorem delete_missing_id_witness :
    (∀ r ∈ ((serviceB.init).1).disk.snapshots, r.id ≠ "nonexistent") ∧
    (serviceB.deleteSnapshot "nonexistent" = .ok ((serviceB.init).1) ∧
     ((serviceB.init).1).getSnapshot "nonexistent"
        = .ok ((serviceB.init).1, none)) :=
  ⟨by decide, delete_missing_id serviceB "nonexistent" (by decide)⟩

theorem getAllSnapshots_of_open (s : StorageService) (hs : s.dbOpen = true) :
    s.getAllSnapshots
      = .ok (s, (idbGetAll s.disk.snapshots).insertionSort savedAtDesc) := by
  rw [getAllSnapshots_run, init_of_dbOpen s hs]

/-- Membership in the sorted list returned by `getAllSnapshots` is exactly
membership in the underlying store. -/
theorem mem_listAll (m : List SavedSnapshot) (r : SavedSnapshot) :
    r ∈ (idbGetAll m).insertionSort savedAtDesc ↔ r ∈ m :=
  ((List.perm_insertionSort savedAtDesc _).trans
    (List.perm_insertionSort keyOrder _)).mem_iff

/-- C6: deleting `a.id` removes exactly the record `a` and nothing else: the
delete resolves, the subsequent `listAll` resolves and contains `b`, every
listed record is a stored record other than `a.id`, every stored record with
a different id is still listed, and `getById(a.id)` now resolves with
`undefined`. -/
theorem delete_removes_exactly (s : StorageService) (a b : SavedSnapshot)
    (ha : a ∈ (s.init).1.disk.snapshots) (hb : b ∈ (s.init).1.disk.snapshots)
    (hne : a.id ≠ b.id) :
    exOk (s.deleteSnapshot a.id) = true ∧
    exOk ((exGet s (s.deleteSnapshot a.id)).getAllSnapshots) = true ∧
    b ∈ (exGet (exGet s (s.deleteSnapshot a.id), [])
          ((exGet s (s.deleteSnapshot a.id)).getAllSnapshots)).2 ∧
    ((exGet (exGet s (s.deleteSnapshot a.id), [])
          ((exGet s (s.deleteSnapshot a.id)).getAllSnapshots)).2).all
        (fun r => (s.init).1.disk.snapshots.contains r && (r.id != a.id))
      = true ∧
    ((s.init).1.disk.snapshots.filter (fun r => r.id != a.id)).all
        (fun r => (exGet (exGet s (s.deleteSnapshot a.id), [])
          ((exGet s (s.deleteSnapshot a.id)).getAllSnapshots)).2.contains r)
      = true ∧
    (exGet s (s.deleteSnapshot a.id)).getSnapshot a.id
      = .ok (exGet s (s.deleteSnapshot a.id), none) := by
  rw [deleteSnapshot_run]
  simp only [exGet]
  rw [getAllSnapshots_of_open (afterDelete s a.id) (afterDelete_dbOpen s a.id)]
  simp only [exGet, afterDelete_snapshots]
  refine ⟨rfl, rfl, ?_, ?_, ?_, ?_⟩
  · rw [mem_listAll]
    simp only [idbDelete, List.mem_filter]
    exact ⟨hb, by simpa using (Ne.symm hne)⟩
  · rw [List.all_eq_true]
    intro r hr
    rw [mem_listAll] at hr
    simp only [idbDelete, List.mem_filter] at hr
    simp [List.contains, hr.1, hr.2]
  · rw [List.all_eq_true]
    intro r hr
    have hm := (mem_listAll (idbDelete (s.init).1.disk.snapshots a.id) r).mpr hr
    simp [List.contains, hm]
  · rw [getSnapshot_of_open (afterDelete s a.id) (afterDelete_dbOpen s a.id),
      afterDelete_snapshots, idbGet_eq_none]
    intro r hr
    have := (List.mem_filter.mp hr).2
    simpa using this

/-- Witness for C6: deleting id a from a store holding records a and b. -/
theorem delete_removes_exactly_witness :
    rAx ∈ (serviceAB.init).1.disk.snapshots ∧
    rB ∈ (serviceAB.init).1.disk.snapshots ∧
    rAx.id ≠ rB.id ∧
    (exOk (serviceAB.deleteSnapshot rAx.id) = true ∧
     exOk ((exGet serviceAB (serviceAB.deleteSnapshot rAx.id)).getAllSnapshots)
        = true ∧
     rB ∈ (exGet (exGet serviceAB (serviceAB.deleteSnapshot rAx.id), [])
          ((exGet serviceAB
              (serviceAB.deleteSnapshot rAx.id)).getAllSnapshots)).2 ∧
     ((exGet (exGet serviceAB (serviceAB.deleteSnapshot rAx.id), [])
          ((exGet serviceAB
              (serviceAB.deleteSnapshot rAx.id)).getAllSnapshots)).2).all
        (fun r => (serviceAB.init).1.disk.snapshots.contains r
            && (r.id != rAx.id)) = true ∧
     ((serviceAB.init).1.disk.snapshots.filter
          (fun r => r.id != rAx.id)).all
        (fun r => (exGet (exGet serviceAB (serviceAB.deleteSnapshot rAx.id), [])
            ((exGet serviceAB
                (serviceAB.deleteSnapshot rAx.id)).getAllSnapshots)).2.contains r)
        = true ∧
     (exGet serviceAB (serviceAB.deleteSnapshot rAx.id)).getSnapshot rAx.id
        = .ok (exGet serviceAB (serviceAB.deleteSnapshot rAx.id), none)) :=
  ⟨by decide, by decide, by decide,
   delete_removes_exactly serviceAB rAx rB (by decide) (by decide) (by decide)⟩

/-- C7: `init` is idempotent. If the handle is already open it returns
immediately without touching the engine; a second init after a first is a
complete no-op (same state, no creation logic run); and any open against a
database already at the current schema version runs no creation logic. -/
theorem init_reopen (s : StorageService) :
    (s.dbOpen = true → s.init = (s, false)) ∧
    ((s.init).1).init = ((s.init).1, false) ∧
    (s.disk.version = DB_VERSION → (s.init).2 = false) := by
  refine ⟨init_of_dbOpen s, init_idem s, ?_⟩
  intro hv
  unfold StorageService.init
  by_cases h : s.dbOpen
  · simp [h]
  · simp [h, engineOpen, hv]

/-- Witness for C7: a service with an open handle on a version-1 database. -/
theorem init_reopen_witness :
    serviceB.dbOpen = true ∧ serviceB.disk.version = DB_VERSION ∧
    serviceB.init = (serviceB, false) ∧
    ((serviceB.init).1).init = ((serviceB.init).1, false) ∧
    (serviceB.init).2 = false :=
  ⟨rfl, rfl, (init_reopen serviceB).1 rfl, (init_reopen serviceB).2.1,
   (init_reopen serviceB).2.2 rfl⟩

/-- C8: under concurrent first calls, in every interleaving, the outcome
equals that of a single sequential `init` (so every caller observes the same
fully initialized handle and contents), and the creation/upgrade sequence
runs in at most one of the two callers. -/
theorem init_single_flight (s : StorageService) (c : Bool) :
    (concurrentInit s c).1 = (s.init).1 ∧
    ((concurrentInit s c).1).dbOpen = true ∧
    ((concurrentInit s c).2.1 && (concurrentInit s c).2.2) = false := by
  unfold concurrentInit StorageService.init
  by_cases h : s.dbOpen
  · simp [h]
  · by_cases hc : c <;> simp [h, hc, engineOpen_idem]

/-- Witness for C2 at the specification's own example records. -/
theorem upsert_same_id_replaces_witness :
    rAx.id = rAy.id ∧
    (Except.bind (emptyService.saveSnapshot rAx) (fun s1 => s1.saveSnapshot rAy)
        = emptyService.saveSnapshot rAy ∧
     (exGet emptyService (Except.bind (emptyService.saveSnapshot rAx)
          (fun s1 => s1.saveSnapshot rAy))).getSnapshot rAy.id
        = .ok (exGet emptyService (emptyService.saveSnapshot rAy), some rAy)) :=
  ⟨rfl, upsert_same_id_replaces emptyService rAx rAy rfl⟩

/-- C9 counterexample: with demo mode enabled in stored settings, a
`savePageNow` call whose accessKey and secretKey are both empty resolves
successfully with the mock message instead of failing with an
authentication error. -/
theorem savePageNow_demo_counterexample :
    exOk (savePageNow (LocalStorageItem.settings true) "https://example.com"
        "" "" (SaveOutcome.resp 200 "")).1 = true ∧
    (savePageNow (LocalStorageItem.settings true) "https://example.com"
        "" "" (SaveOutcome.resp 200 "")).1
      = .ok { saved := true,
              message := "Mock Mode: URL successfully queued for capture." } :=
  ⟨rfl, rfl⟩

/-- C9 amended: when demo mode is off, `savePageNow` with an empty accessKey
or secretKey rejects with the missing-credentials error and submits no
capture request, for every url and network outcome. -/
theorem savePageNow_missing_credentials (ls : LocalStorageItem)
    (url accessKey secretKey : String) (out : SaveOutcome)
    (hd : isDemoMode ls = false) (hk : accessKey = "" ∨ secretKey = "") :
    savePageNow ls url accessKey secretKey out
      = (.error "Missing Credentials. Please configure API keys in Settings.",
         false) := by
  simp [savePageNow, hd, hk]

/-- Witness for the amended C9: no stored settings, empty access key. -/
theorem savePageNow_missing_credentials_witness :
    isDemoMode LocalStorageItem.absent = false ∧
    (("" : String) = "" ∨ ("sk" : String) = "") ∧
    savePageNow LocalStorageItem.absent "https://example.com" "" "sk"
        (SaveOutcome.resp 200 "")
      = (.error "Missing Credentials. Please configure API keys in Settings.",
         false) :=
  ⟨rfl, Or.inl rfl,
   savePageNow_missing_credentials LocalStorageItem.absent "https://example.com"
     "" "sk" (SaveOutcome.resp 200 "") rfl (Or.inl rfl)⟩

/-- C10: `checkAvailability` and `fetchCDX` always resolve, never reject:
for every stored-settings state, url and network outcome the result is ok;
and a network error, a non-OK status, an unparseable JSON body, or a
non-JSON body with nonempty text each resolve with the deterministic mock
data for the url. -/
theorem wayback_total_fallback (ls : LocalStorageItem) (url : String) :
    (∀ out : AvailOutcome, exOk (checkAvailability ls url out) = true) ∧
    (∀ out : CDXOutcome, exOk (fetchCDX ls url out) = true) ∧
    (∀ m, checkAvailability ls url (.netError m)
        = .ok (getMockAvailability url)) ∧
    (∀ status, checkAvailability ls url (.resp status .badJson)
        = .ok (getMockAvailability url)) ∧
    (∀ status body, resOk status = false →
        checkAvailability ls url (.resp status body)
          = .ok (getMockAvailability url)) ∧
    (∀ m, fetchCDX ls url (.netError m) = .ok (getMockCDX url)) ∧
    (∀ status, fetchCDX ls url (.resp status .badJson)
        = .ok (getMockCDX url)) ∧
    (∀ status text, text.length ≠ 0 →
        fetchCDX ls url (.resp status (.notJson text))
          = .ok (getMockCDX url)) ∧
    (∀ status body, resOk status = false →
        fetchCDX ls url (.resp status body) = .ok (getMockCDX url)) := by
  by_cases hd : isDemoMode ls
  · refine ⟨?_, ?_, ?_, ?_, ?_, ?_, ?_, ?_, ?_⟩ <;>
      intros <;> simp [checkAvailability, fetchCDX, hd, exOk]
  · simp only [Bool.not_eq_true] at hd
    refine ⟨?_, ?_, ?_, ?_, ?_, ?_, ?_, ?_, ?_⟩
    · intro out
      cases out with
      | netError m => simp [checkAvailability, checkAvailabilityTry, hd, exOk]
      | resp status body =>
        by_cases hs : resOk status
        · cases body <;>
            simp [checkAvailability, checkAvailabilityTry, hd, hs, exOk]
        · simp [checkAvailability, checkAvailabilityTry, hd, hs, exOk]
    · intro out
      cases out with
      | netError m => simp [fetchCDX, fetchCDXTry, hd, exOk]
      | resp status body =>
        by_cases hs : resOk status
        · cases body with
          | notJson text =>
            by_cases ht : text.length = 0 <;>
              simp [fetchCDX, fetchCDXTry, hd, hs, ht, exOk]
          | badJson => simp [fetchCDX, fetchCDXTry, hd, hs, exOk]
          | jsonArr rows =>
            by_cases hr : 1 < rows.length <;>
              simp [fetchCDX, fetchCDXTry, hd, hs, hr, exOk]
          | jsonOther => simp [fetchCDX, fetchCDXTry, hd, hs, exOk]
        · simp [fetchCDX, fetchCDXTry, hd, hs, exOk]
    · intro m
      simp [checkAvailability, checkAvailabilityTry, hd]
    · intro status
      by_cases hs : resOk status <;>
        simp [checkAvailability, checkAvailabilityTry, hd, hs]
    · intro status body hs
      cases body <;> simp [checkAvailability, checkAvailabilityTry, hd, hs]
    · intro m
      simp [fetchCDX, fetchCDXTry, hd]
    · intro status
      by_cases hs : resOk status <;>
        simp [fetchCDX, fetchCDXTry, hd, hs]
    · intro status text ht
      by_cases hs : resOk status <;>
        simp [fetchCDX, fetchCDXTry, hd, hs, ht]
    · intro status body hs
      cases body <;> simp [fetchCDX, fetchCDXTry, hd, hs]

/-- Witness for C10 at concrete inputs: a 500 response with parseable JSON
falls back to mock availability; a 200 CDX response with non-JSON nonempty
body falls back to mock history; a well-formed CDX response still resolves. -/
theorem wayback_total_fallback_witness :
    resOk 500 = false ∧
    ("oops" : String).length ≠ 0 ∧
    checkAvailability LocalStorageItem.absent "https://example.com"
        (AvailOutcome.resp 500
          (AvailBody.json (getMockAvailability "https://example.com")))
      = .ok (getMockAvailability "https://example.com") ∧
    fetchCDX LocalStorageItem.absent "https://example.com"
        (CDXOutcome.resp 200 (CDXBody.notJson "oops"))
      = .ok (getMockCDX "https://example.com") ∧
    exOk (fetchCDX LocalStorageItem.absent "https://example.com"
        (CDXOutcome.resp 200 (CDXBody.jsonArr [["h"], ["a", "b", "c"]])))
      = true := by
  refine ⟨by decide, by decide, ?_, ?_, ?_⟩
  · exact (wayback_total_fallback LocalStorageItem.absent
      "https://example.com").2.2.2.2.1 500
      (AvailBody.json (getMockAvailability "https://example.com")) (by decide)
  · exact (wayback_total_fallback LocalStorageItem.absent
      "https://example.com").2.2.2.2.2.2.2.1 200 "oops" (by decide)
  · exact (wayback_total_fallback LocalStorageItem.absent
      "https://example.com").2.1
      (CDXOutcome.resp 200 (CDXBody.jsonArr [["h"], ["a", "b", "c"]]))

end OmniDash
